import Mathlib

/-!
Verification development for the JD live-assistant orchestrator
(`jd.create.aiword.screen`).  The definitions below are shallow embeddings of
the TypeScript source: the batch ingestion routine `addSkusToBag`
(LiveAssistant.vue), the countdown / explain-cycle state handlers
(LiveAssistant.vue plus the pinia live store), the script-panel switching
guards (AIScriptPanel.vue), the screen-sync hub, and the session persistence
logic (`saveCurrentSession`).  Asynchronous gateway calls are modelled as
oracles: functions from the call index (and the argument batch) to the
outcome the gateway produced for that call, so one oracle value corresponds
to one sequence of gateway outcomes.  Timestamps are naturals (milliseconds,
as produced by `Date.now()`).
-/

namespace JDLive

/-! ## Data model (src/modules/live/types/index.ts) -/

/-- Product detail returned by the gateway (`SkuInfo`); only the fields the
ingestion loop reads are kept: `title`/`img` may be absent (`?? ''` at use
sites), `price`/`shopName` are passed through unchanged. -/
structure SkuInfo where
  sku : String
  title : Option String
  img : Option String
  price : Option String
  shopName : Option String
deriving Repr, DecidableEq

/-- Persisted live product (`LiveProduct`). -/
structure LiveProduct where
  sku : String
  title : String
  img : String
  price : Option String
  shopName : Option String
deriving Repr, DecidableEq

/-- The record constructed in `addSkusToBag` when appending a successfully
cart-added item to the session (LiveAssistant.vue lines 309-317). -/
def toLiveProduct (s : SkuInfo) : LiveProduct :=
  { sku := s.sku
    title := s.title.getD ""
    img := s.img.getD ""
    price := s.price
    shopName := s.shopName }

/-- Product file (`ProductFile`); fields used by the ingestion loop. -/
structure ProductFile where
  name : String
  productIds : List String
  useCount : Nat
deriving Repr, DecidableEq

/-- AI narration script (`AIScript`). -/
structure AIScript where
  id : String
  content : String
  productId : Option String
deriving Repr, DecidableEq

/-- Live session (`LiveSession`); fields used by the store operations. -/
structure LiveSession where
  id : String
  liveId : Nat
  title : String
  products : List LiveProduct
  scripts : List AIScript
deriving Repr, DecidableEq

/-! ## Gateway oracles for ingestion

`getSkuInfoByFile` and `addSkuToBagBatch` are awaited network calls wrapped in
`try`/`catch`.  An outcome is either a thrown error (caught by the loop) or a
returned value.  An oracle maps the index of the call within the run, together
with the batch that was sent, to that call's outcome; quantifying over oracles
quantifies over every possible sequence of gateway outcomes. -/

/-- One outcome of `getSkuInfoByFile`: a thrown error or a detail list. -/
inductive FetchOutcome where
  | err
  | ok (infos : List SkuInfo)
deriving Repr, DecidableEq

/-- One outcome of `addSkuToBagBatch`: a thrown error or an `AddSkuResult`
    (`{success, success_count}`). -/
inductive AddOutcome where
  | err
  | ok (success : Bool) (successCount : Nat)
deriving Repr, DecidableEq

abbrev FetchOracle := Nat → List String → FetchOutcome

abbrev AddOracle := Nat → List SkuInfo → AddOutcome

/-- A gateway cannot report more successfully added items than the batch it
was sent contained: `success_count` counts a subset of `skuList`. -/
def AddOracle.WellFormed (addO : AddOracle) : Prop :=
  ∀ n batch s c, addO n batch = .ok s c → c ≤ batch.length

/-- Mutable state threaded through one `addSkusToBag` run: the aggregate
success counter `totalSuccess`, the number of gateway calls made so far (used
to index the oracles), and the `LiveProduct` entries appended to the active
session by this run (`store.addProductsToSession`). -/
structure IngestState where
  totalSuccess : Nat
  fetchCalls : Nat
  addCalls : Nat
  session : List LiveProduct
deriving Repr, DecidableEq

/-- `DEFAULTS.MAX_BATCH_SIZE` (app config). -/
def MAX_BATCH_SIZE : Nat := 150

/-- `DEFAULTS.FILE_USE_COUNT` sentinel: 999 means "use all ids". -/
def FILE_USE_COUNT : Nat := 999

/-- Sub-batch size computed at LiveAssistant.vue line 297:
`Math.min(batchRemaining, maxBatchSize, batchAvailable)`. -/
def batchSize (target total avail : Nat) : Nat :=
  min (min (target - total) MAX_BATCH_SIZE) avail

/-- Inner sub-batch loop of `addSkusToBag` (LiveAssistant.vue lines 293-323):
while the target is not reached and fetched details remain, cut a sub-batch of
size `min(remaining, MAX_BATCH_SIZE, available)`, call `addSkuToBagBatch`, and
when it returns `success` with a positive count append the first
`success_count` items of the batch (converted to `LiveProduct`) to the session
and add the count to the per-file and aggregate counters; on a thrown error
continue with the next sub-batch. -/
def addLoop (addO : AddOracle) (target : Nat) (infos : List SkuInfo)
    (st : IngestState) (fileSuccess : Nat) : IngestState × Nat :=
  if h : st.totalSuccess < target ∧ infos ≠ [] then
    match addO st.addCalls (infos.take (batchSize target st.totalSuccess infos.length)) with
    | .err =>
        addLoop addO target (infos.drop (batchSize target st.totalSuccess infos.length))
          { st with addCalls := st.addCalls + 1 } fileSuccess
    | .ok success cnt =>
        if success = true ∧ 0 < cnt then
          addLoop addO target (infos.drop (batchSize target st.totalSuccess infos.length))
            { st with
                addCalls := st.addCalls + 1
                totalSuccess := st.totalSuccess + cnt
                session := st.session ++
                  ((infos.take (batchSize target st.totalSuccess infos.length)).take cnt).map
                    toLiveProduct }
            (fileSuccess + cnt)
        else
          addLoop addO target (infos.drop (batchSize target st.totalSuccess infos.length))
            { st with addCalls := st.addCalls + 1 } fileSuccess
  else
    (st, fileSuccess)
termination_by infos.length
decreasing_by
  all_goals
    simp only [List.length_drop, batchSize, MAX_BATCH_SIZE]
    have h1 : 1 ≤ target - st.totalSuccess := Nat.le_sub_of_add_le (by omega)
    have h2 : infos.length ≠ 0 := fun hlen => h.2 (List.eq_nil_of_length_eq_zero hlen)
    omega

/-- Fetch chunk size computed at LiveAssistant.vue line 266:
`Math.min(remaining + 20, available, 100)`. -/
def fetchCount (target total avail : Nat) : Nat :=
  min (min (target - total + 20) avail) 100

/-- Per-file chunk loop of `addSkusToBag` (LiveAssistant.vue lines 262-324):
while the target is not reached and ids remain, fetch a chunk of
`min(remaining + 20, available, 100)` ids (over-fetching to compensate for
invalid ids), record the invalid count, and feed the returned details to the
sub-batch loop; on a thrown fetch error log and skip the chunk.  Returns the
final state plus the per-file `(fileSuccess, fileInvalid)` counters. -/
def fetchLoop (fetchO : FetchOracle) (addO : AddOracle) (target : Nat)
    (ids : List String) (st : IngestState) (fileSuccess fileInvalid : Nat) :
    IngestState × Nat × Nat :=
  if h : st.totalSuccess < target ∧ ids ≠ [] then
    if h0 : fetchCount target st.totalSuccess ids.length = 0 then
      (st, fileSuccess, fileInvalid)
    else
      match fetchO st.fetchCalls (ids.take (fetchCount target st.totalSuccess ids.length)) with
      | .err =>
          fetchLoop fetchO addO target (ids.drop (fetchCount target st.totalSuccess ids.length))
            { st with fetchCalls := st.fetchCalls + 1 } fileSuccess fileInvalid
      | .ok infos =>
          if infos = [] then
            fetchLoop fetchO addO target (ids.drop (fetchCount target st.totalSuccess ids.length))
              { st with fetchCalls := st.fetchCalls + 1 } fileSuccess
              (fileInvalid +
                ((ids.take (fetchCount target st.totalSuccess ids.length)).length - infos.length))
          else
            fetchLoop fetchO addO target (ids.drop (fetchCount target st.totalSuccess ids.length))
              (addLoop addO target infos { st with fetchCalls := st.fetchCalls + 1 } fileSuccess).1
              (addLoop addO target infos { st with fetchCalls := st.fetchCalls + 1 } fileSuccess).2
              (fileInvalid +
                ((ids.take (fetchCount target st.totalSuccess ids.length)).length - infos.length))
  else
    (st, fileSuccess, fileInvalid)
termination_by ids.length
decreasing_by
  all_goals
    simp only [List.length_drop, fetchCount]
    have h2 : ids.length ≠ 0 := fun hlen => h.2 (List.eq_nil_of_length_eq_zero hlen)
    omega

/-- The ids actually taken from a file: the first `useCount` ids, where the
sentinel 999 means all of them (`file.useCount === 999 ? ... : file.useCount`,
LiveAssistant.vue line 249). -/
def fileIds (f : ProductFile) : List String :=
  f.productIds.take (if f.useCount = FILE_USE_COUNT then f.productIds.length else f.useCount)

/-- Per-file statistics logged at the end of each file
(`{fileName, success, invalid}`). -/
structure FileReport where
  name : String
  success : Nat
  invalid : Nat
deriving Repr, DecidableEq

/-- File loop of `addSkusToBag` (LiveAssistant.vue lines 245-331): process the
files in order, breaking out as soon as the aggregate counter reaches the
target (files after the break produce no report). -/
def ingestFiles (fetchO : FetchOracle) (addO : AddOracle) (target : Nat) :
    List ProductFile → IngestState → IngestState × List FileReport
  | [], st => (st, [])
  | f :: fs, st =>
    if target ≤ st.totalSuccess then
      (st, [])
    else
      ((ingestFiles fetchO addO target fs (fetchLoop fetchO addO target (fileIds f) st 0 0).1).1,
        ⟨f.name, (fetchLoop fetchO addO target (fileIds f) st 0 0).2.1,
          (fetchLoop fetchO addO target (fileIds f) st 0 0).2.2⟩ ::
          (ingestFiles fetchO addO target fs
            (fetchLoop fetchO addO target (fileIds f) st 0 0).1).2)

/-- Classification of the final log line of a run: `noFiles` when the file
list is empty (line 237), `partialWarning` when every file was exhausted below
the target (line 334), `success` otherwise (line 336).  The routine has no
other exit: every gateway failure is caught inside the loops. -/
inductive IngestStatus where
  | noFiles
  | partialWarning
  | success
deriving Repr, DecidableEq

/-- Result of one `addSkusToBag` run: final counters/appended products, the
per-file reports, the final status, and the returned `totalSuccess`. -/
structure IngestResult where
  state : IngestState
  reports : List FileReport
  status : IngestStatus
  returned : Nat
deriving Repr, DecidableEq

/-- `addSkusToBag(liveId, cookies)` (LiveAssistant.vue lines 231-339), with
the target `store.liveParams.cartProducts` and the file list as parameters.
The active session starts empty (`createLiveSession` runs immediately before,
line 503), so `state.session` is exactly the list of `LiveProduct` entries
appended to the active session by this run. -/
def addSkusToBag (fetchO : FetchOracle) (addO : AddOracle)
    (files : List ProductFile) (target : Nat) : IngestResult :=
  if files = [] then
    ⟨⟨0, 0, 0, []⟩, [], .noFiles, 0⟩
  else
    ⟨(ingestFiles fetchO addO target files ⟨0, 0, 0, []⟩).1,
      (ingestFiles fetchO addO target files ⟨0, 0, 0, []⟩).2,
      if (ingestFiles fetchO addO target files ⟨0, 0, 0, []⟩).1.totalSuccess < target then
        .partialWarning
      else .success,
      (ingestFiles fetchO addO target files ⟨0, 0, 0, []⟩).1.totalSuccess⟩

/-! ## Countdown store (unnamed/part_012, pinia live store)

`Date` values are milliseconds since the epoch (`Date.now()`), modelled as
naturals.  `Math.max(0, Math.floor((t - now) / 1000))` coincides with natural
truncated subtraction followed by division: both give `0` whenever
`t ≤ now`. -/

/-- `countdownPhase` values (part_012 line 75). -/
inductive Phase where
  | prepare
  | explain
  | rest
deriving Repr, DecidableEq

/-- The countdown refs of the live store: `countdownTargetTime`,
`countdownRunning`, `countdownPausedRemaining` (seconds), `countdownPhase`. -/
structure CountdownState where
  targetTime : Option Nat
  running : Bool
  pausedRemaining : Option Nat
  phase : Phase
deriving Repr, DecidableEq

/-- `startCountdown(targetTime)` (part_012 lines 235-239): sets the target and
the running flag and clears the paused snapshot; the phase is not touched. -/
def startCountdown (st : CountdownState) (targetTime : Nat) : CountdownState :=
  { st with targetTime := some targetTime, running := true, pausedRemaining := none }

/-- `startCountdownFromSeconds(seconds, phase = 'explain')` (lines 242-250):
target becomes `now + seconds * 1000` and the phase is overwritten with the
argument (which defaults to `explain` at the call sites that omit it). -/
def startCountdownFromSeconds (st : CountdownState) (now seconds : Nat) (phase : Phase) :
    CountdownState :=
  { st with
      targetTime := some (now + seconds * 1000)
      running := true
      pausedRemaining := none
      phase := phase }

/-- `pauseCountdown()` (lines 253-263): only acts when a target is set and the
countdown is running; snapshots the remaining whole seconds, stops the tick
and clears the target.  The phase is left unchanged. -/
def pauseCountdown (st : CountdownState) (now : Nat) : CountdownState :=
  match st.targetTime with
  | some t =>
      if st.running then
        { st with
            pausedRemaining := some ((t - now) / 1000)
            running := false
            targetTime := none }
      else st
  | none => st

/-- `resumeCountdown()` (lines 266-270): when a paused snapshot exists,
restart from it via `startCountdownFromSeconds` — called without a phase
argument, so the phase is the default `explain`. -/
def resumeCountdown (st : CountdownState) (now : Nat) : CountdownState :=
  match st.pausedRemaining with
  | some r => startCountdownFromSeconds st now r .explain
  | none => st

/-- `stopCountdown()` (lines 272-277): stop, clear target and snapshot, and
reset the phase to `explain`. -/
def stopCountdown (st : CountdownState) : CountdownState :=
  { st with
      running := false
      pausedRemaining := none
      targetTime := none
      phase := .explain }

/-- `nextScript()` (part_012 lines 294-298, identical in stores/live.ts lines
234-238): advance the pointer only when strictly below the last index. -/
def nextScript (scripts : List AIScript) (idx : Nat) : Nat :=
  if idx < scripts.length - 1 then idx + 1 else idx

/-- `prevScript()` (part_012 lines 300-304, identical in stores/live.ts lines
240-244): retreat the pointer only when strictly above zero. -/
def prevScript (idx : Nat) : Nat :=
  if 0 < idx then idx - 1 else idx

/-! ## Explain cycle controller (LiveAssistant.vue)

The handlers read `Date.now()` twice: once for the rate-limit check
(`now`) and again after the awaited cookie read and gateway call, when the
new explain state and countdown target are written (`tAfter`). -/

/-- `LIVE_CONFIG.MIN_EXPLAIN_DURATION` (app config line 137): 63000 ms. -/
def MIN_EXPLAIN_DURATION : Nat := 63000

/-- `LIVE_CONFIG.EXPLAIN_ACTION_DELAY` (app config line 139): 1500 ms. -/
def EXPLAIN_ACTION_DELAY : Nat := 1500

/-- `LIVE_CONFIG.MAX_SESSIONS` (app config line 147). -/
def MAX_SESSIONS : Nat := 50

/-- Outcome of a `startExplain` / `endExplain` gateway call: success, or a
thrown error whose message may contain one of the two self-heal markers
checked at LiveAssistant.vue lines 886 (`正在讲解`) and 929 (`讲解视频失败`). -/
inductive ExplainOutcome where
  | ok
  | errAlreadyExplaining
  | errVideoFail
  | errOther
deriving Repr, DecidableEq

/-- The user-visible disposition of one explain call: rejected for a missing
room, rejected as "too fast" (操作过快), aborted for missing cookies, done,
self-healed, or failed with a surfaced error. -/
inductive CallResult where
  | noRoom
  | tooFast
  | noCookies
  | done
  | healed
  | failed
deriving Repr, DecidableEq

/-- JS truthiness of an optional string (`undefined` and `''` are falsy). -/
def strTruthy : Option String → Bool
  | some s => s ≠ ""
  | none => false

/-- State read and written by the explain-cycle handlers: the countdown store
slice, the script list/pointer, the explain refs of LiveAssistant.vue
(`isExplaining`, `currentExplainingSku`, `explainStartTime`), the module-level
`lastExplainActionTime`, the live room id, the auto-advance switch, and the
two duration settings (seconds). -/
structure LiveState where
  countdown : CountdownState
  aiScripts : List AIScript
  currentScriptIndex : Nat
  isExplaining : Bool
  currentExplainingSku : Option String
  explainStartTime : Nat
  lastExplainActionTime : Nat
  liveId : Option Nat
  autoExplainEnabled : Bool
  explainDuration : Nat
  restDuration : Nat
deriving Repr, DecidableEq

/-- `handleStartExplain(productId)` (LiveAssistant.vue lines 841-894): reject
without a room; hard-reject calls within `EXPLAIN_ACTION_DELAY` of the last
non-rejected call; otherwise stamp `lastExplainActionTime`, and on gateway
success mark the product as explaining, record `explainStartTime`, and start
the explain countdown when none is running.  An "already explaining" error
self-heals into the explaining state. -/
def handleStartExplain (st : LiveState) (productId : String) (now tAfter : Nat)
    (cookiesOk : Bool) (outcome : ExplainOutcome) : LiveState × CallResult :=
  if st.liveId = none then (st, .noRoom)
  else if now - st.lastExplainActionTime < EXPLAIN_ACTION_DELAY then (st, .tooFast)
  else if cookiesOk = false then ({ st with lastExplainActionTime := now }, .noCookies)
  else
    match outcome with
    | .ok =>
        if st.countdown.running = false then
          ({ st with
              lastExplainActionTime := now
              isExplaining := true
              currentExplainingSku := some productId
              explainStartTime := tAfter
              countdown := startCountdown st.countdown (tAfter + st.explainDuration * 1000) },
            .done)
        else
          ({ st with
              lastExplainActionTime := now
              isExplaining := true
              currentExplainingSku := some productId
              explainStartTime := tAfter }, .done)
    | .errAlreadyExplaining =>
        ({ st with
            lastExplainActionTime := now
            isExplaining := true
            currentExplainingSku := some productId }, .healed)
    | .errVideoFail => ({ st with lastExplainActionTime := now }, .failed)
    | .errOther => ({ st with lastExplainActionTime := now }, .failed)

/-- `startRestAndNextExplain()` synchronous part (LiveAssistant.vue lines
122-127): start the rest countdown (`store.startCountdown`, which keeps the
phase) with target `now + restDuration * 1000`, and schedule the rest timer. -/
def startRestAndNextExplain (st : LiveState) (now : Nat) : LiveState :=
  { st with countdown := startCountdown st.countdown (now + st.restDuration * 1000) }

/-- `handleEndExplain(productId)` (LiveAssistant.vue lines 897-939): silently
return without a room; hard-reject calls within `EXPLAIN_ACTION_DELAY`;
otherwise stamp `lastExplainActionTime`, and on gateway success clear the
explain state, stop the countdown, and — when auto-advance is on — enter the
rest countdown.  A "讲解视频失败" error self-heals by clearing the explain
state and stopping the countdown (without resetting `explainStartTime`). -/
def handleEndExplain (st : LiveState) (productId : String) (now tAfter : Nat)
    (cookiesOk : Bool) (outcome : ExplainOutcome) : LiveState × CallResult :=
  if st.liveId = none then (st, .noRoom)
  else if now - st.lastExplainActionTime < EXPLAIN_ACTION_DELAY then (st, .tooFast)
  else if cookiesOk = false then ({ st with lastExplainActionTime := now }, .noCookies)
  else
    match outcome with
    | .ok =>
        if st.autoExplainEnabled = true then
          (startRestAndNextExplain
            { st with
                lastExplainActionTime := now
                isExplaining := false
                currentExplainingSku := none
                explainStartTime := 0
                countdown := stopCountdown st.countdown } tAfter, .done)
        else
          ({ st with
              lastExplainActionTime := now
              isExplaining := false
              currentExplainingSku := none
              explainStartTime := 0
              countdown := stopCountdown st.countdown }, .done)
    | .errVideoFail =>
        ({ st with
            lastExplainActionTime := now
            isExplaining := false
            currentExplainingSku := none
            countdown := stopCountdown st.countdown }, .healed)
    | .errAlreadyExplaining => ({ st with lastExplainActionTime := now }, .failed)
    | .errOther => ({ st with lastExplainActionTime := now }, .failed)

/-- The rest timer scheduled by `startRestAndNextExplain` firing after
`restDuration` seconds (LiveAssistant.vue lines 129-145): when a next script
exists, advance the pointer and — after the settle delay — request
`handleStartExplain` for the new script's product if it has a truthy product
id and auto-advance is still enabled; otherwise stop the countdown.  The
second component is the product id passed to `handleStartExplain`, `none`
when no start call is issued. -/
def restTimerFire (st : LiveState) : LiveState × Option String :=
  if st.currentScriptIndex < st.aiScripts.length - 1 then
    ({ st with currentScriptIndex := nextScript st.aiScripts st.currentScriptIndex },
      match st.aiScripts.get? (nextScript st.aiScripts st.currentScriptIndex) with
      | some sc =>
          if strTruthy sc.productId = true ∧ st.autoExplainEnabled = true then sc.productId
          else none
      | none => none)
  else
    ({ st with countdown := stopCountdown st.countdown }, none)

/-- `canSwitchNext` computed (LiveAssistant.vue lines 102-105): true when not
explaining or no start time is recorded; otherwise true exactly when at least
`MIN_EXPLAIN_DURATION` elapsed since `explainStartTime`. -/
def canSwitchNext (st : LiveState) (now : Nat) : Bool :=
  if st.isExplaining = false ∨ st.explainStartTime = 0 then true
  else decide (MIN_EXPLAIN_DURATION ≤ now - st.explainStartTime)

/-- `canPrev` computed (AIScriptPanel.vue line 280): the Prev button is
enabled exactly when the pointer is positive — never time-gated. -/
def canPrev (st : LiveState) : Bool :=
  decide (0 < st.currentScriptIndex)

/-- `canNext` computed (AIScriptPanel.vue lines 282-287): false at (or past)
the last script; false when auto-advance is on, a product is being explained
and `canSwitchNext` is false; true otherwise. -/
def canNext (st : LiveState) (now : Nat) : Bool :=
  if st.aiScripts.length - 1 ≤ st.currentScriptIndex then false
  else if st.autoExplainEnabled = true ∧ st.isExplaining = true ∧ canSwitchNext st now = false
    then false
  else true

/-- `handleNextScript()` (LiveAssistant.vue lines 108-119): when auto-advance
is on and a product is being explained, end the current explain (the rest
timer will advance the pointer); otherwise just advance the pointer. -/
def handleNextScript (st : LiveState) (now tAfter : Nat) (cookiesOk : Bool)
    (outcome : ExplainOutcome) : LiveState :=
  if st.autoExplainEnabled = true ∧ st.isExplaining = true ∧
      strTruthy st.currentExplainingSku = true then
    (handleEndExplain st (st.currentExplainingSku.getD "") now tAfter cookiesOk outcome).1
  else
    { st with currentScriptIndex := nextScript st.aiScripts st.currentScriptIndex }

/-- A `switchNext` request from the script panel: the Next button is disabled
while `canNext` is false, so the request is dropped with no state change;
otherwise the panel emits `next`, handled by `handleNextScript` (when
auto-advance is on the panel's extra `endExplain` emission is the same
`handleEndExplain` call that `handleNextScript` issues, rate-limited to one
effective call). -/
def switchNextRequest (st : LiveState) (now tAfter : Nat) (cookiesOk : Bool)
    (outcome : ExplainOutcome) : LiveState :=
  if canNext st now = true then handleNextScript st now tAfter cookiesOk outcome else st

/-- A `switchPrev` request from the script panel: dropped while `canPrev` is
false; otherwise handled by the store's `prevScript`. -/
def switchPrevRequest (st : LiveState) : LiveState :=
  if canPrev st = true then
    { st with currentScriptIndex := prevScript st.currentScriptIndex }
  else st

/-! ## Session persistence (unnamed/part_012, `saveCurrentSession`) -/

/-- Lines 373-378 of part_012: update the session with the same id in place,
otherwise unshift the new session to the front (newest first). -/
def updateOrUnshift (sessions : List LiveSession) (c : LiveSession) : List LiveSession :=
  match sessions.findIdx? (fun s => s.id == c.id) with
  | some i => sessions.set i c
  | none => c :: sessions

/-- `saveCurrentSession()` (part_012 lines 366-386), list part: no-op without
a current session; otherwise store the current scripts into the session,
update-or-unshift it, and when the list exceeds `MAX_SESSIONS` keep only the
first (newest) `MAX_SESSIONS` entries, evicting the oldest at the tail.  The
subsequent disk write is best-effort and does not affect the list. -/
def saveCurrentSession (sessions : List LiveSession) (cur : Option LiveSession)
    (scripts : List AIScript) : List LiveSession :=
  match cur with
  | none => sessions
  | some c =>
      if MAX_SESSIONS < (updateOrUnshift sessions { c with scripts := scripts }).length then
        (updateOrUnshift sessions { c with scripts := scripts }).take MAX_SESSIONS
      else
        updateOrUnshift sessions { c with scripts := scripts }

/-! ## Screen sync hub (AIScriptPanel.vue, script-screen synchronization)

The panel runs on a single-threaded event loop: listener callbacks and watch
callbacks run to completion, in arrival order.  A run of the hub is therefore
a fold over the ordered event list. -/

/-- What triggered a `script-sync-to-screen` message. -/
inductive SyncTrigger where
  | readyReply
  | changePush
deriving Repr, DecidableEq

/-- A message pushed to the script screen; the payload is always the full
state `{scripts, index}`. -/
structure SyncMsg where
  trigger : SyncTrigger
  scripts : List AIScript
  index : Nat
deriving Repr, DecidableEq

/-- Events processed in order by the panel: the `script-screen-ready`
handshake, a watched state change, and the `screen-script-closed`
notification. -/
inductive HubEvent where
  | ready
  | change (scripts : List AIScript) (index : Nat)
  | screenClosed
deriving Repr, DecidableEq

/-- Panel state: `isScriptScreening` plus the mirrored `scripts`/`index`. -/
structure HubState where
  screening : Bool
  scripts : List AIScript
  index : Nat
deriving Repr, DecidableEq

/-- One event-loop step (AIScriptPanel.vue): the ready listener (lines
407-414) replies immediately with the full state while screening; the watch
on `[currentIndex, scripts]` (lines 373-384) updates the mirror and pushes
the full state while screening; `screen-script-closed` (lines 392-394)
clears the screening flag. -/
def hubStep (st : HubState) : HubEvent → HubState × List SyncMsg
  | .ready =>
      (st, if st.screening = true then [⟨.readyReply, st.scripts, st.index⟩] else [])
  | .change scripts index =>
      ({ st with scripts := scripts, index := index },
        if st.screening = true then [⟨.changePush, scripts, index⟩] else [])
  | .screenClosed => ({ st with screening := false }, [])

/-- Process an ordered event list, concatenating the outbound messages. -/
def hubRun (st : HubState) : List HubEvent → HubState × List SyncMsg
  | [] => (st, [])
  | e :: es =>
      ((hubRun (hubStep st e).1 es).1,
        (hubStep st e).2 ++ (hubRun (hubStep st e).1 es).2)

/-! ## Navigation sequences (for the pointer-range invariant) -/

/-- A manual navigation request. -/
inductive NavOp where
  | next
  | prev
deriving Repr, DecidableEq

/-- Apply one navigation request to the script pointer. -/
def applyNav (scripts : List AIScript) (idx : Nat) : NavOp → Nat
  | .next => nextScript scripts idx
  | .prev => prevScript idx

/-- Apply a sequence of navigation requests in order. -/
def applyNavs (scripts : List AIScript) (idx : Nat) : List NavOp → Nat
  | [] => idx
  | op :: ops => applyNavs scripts (applyNav scripts idx op) ops


/-! ## Concrete instances used by the witnesses -/

/-- A minimal detail record for a given sku id. -/
def demoInfo (s : String) : SkuInfo := ⟨s, none, none, none, none⟩

/-- A fetch oracle that validates every requested id. -/
def demoFetch : FetchOracle := fun _ ids => .ok (ids.map demoInfo)

/-- An add oracle that carts every submitted item. -/
def demoAdd : AddOracle := fun _ batch => .ok true batch.length

/-- A fetch oracle whose every call throws. -/
def errFetch : FetchOracle := fun _ _ => .err

/-- An add oracle whose every call throws. -/
def errAdd : AddOracle := fun _ _ => .err

/-- Two small product files for concrete runs. -/
def demoFiles : List ProductFile :=
  [⟨"f1", ["1", "2", "3", "4", "5"], 5⟩, ⟨"f2", ["6", "7", "8", "9", "10"], 999⟩]

/-- Two scripts with product ids. -/
def demoScripts : List AIScript :=
  [⟨"1", "s1", some "sku1"⟩, ⟨"2", "s2", some "sku2"⟩]

/-- A controller state mid-explain: explain started at 50000 ms, auto-advance
on, a room open. -/
def demoLive : LiveState :=
  { countdown := ⟨some 100000, true, none, Phase.explain⟩
    aiScripts := demoScripts
    currentScriptIndex := 0
    isExplaining := true
    currentExplainingSku := some "sku1"
    explainStartTime := 50000
    lastExplainActionTime := 50000
    liveId := some 7
    autoExplainEnabled := true
    explainDuration := 70
    restDuration := 10 }

/-- A hub state with an attached (screening) surface. -/
def demoHub : HubState := ⟨true, demoScripts, 0⟩

/-- A bare session with a given id. -/
def demoSession (i : String) : LiveSession := ⟨i, 1, "t", [], []⟩

/-! ## Loop invariants of the ingestion engine -/

/-- Through the sub-batch loop, assuming the gateway never reports more
successes than the batch size: the aggregate counter is monotone, it stays
at or below the target, the session grows by exactly the counter growth, and
the per-file counter grows by exactly the counter growth. -/
theorem addLoop_invariant (addO : AddOracle) (target : Nat)
    (hwf : AddOracle.WellFormed addO) :
    ∀ (infos : List SkuInfo) (st : IngestState) (fs : Nat),
      st.totalSuccess ≤ (addLoop addO target infos st fs).1.totalSuccess ∧
      (addLoop addO target infos st fs).1.totalSuccess ≤ max st.totalSuccess target ∧
      (addLoop addO target infos st fs).1.session.length + st.totalSuccess
        = st.session.length + (addLoop addO target infos st fs).1.totalSuccess ∧
      (addLoop addO target infos st fs).2 + st.totalSuccess
        = fs + (addLoop addO target infos st fs).1.totalSuccess := by
  intro infos st fs
  induction infos, st, fs using addLoop.induct addO target with
  | case1 infos st fs hcond heq ih =>
      rw [addLoop.eq_def]
      simp only [dif_pos hcond, heq]
      exact ih
  | case2 infos st fs hcond s c heq hsc ih =>
      rw [addLoop.eq_def]
      simp only [dif_pos hcond, heq, if_pos hsc]
      have hc : c ≤ (infos.take (batchSize target st.totalSuccess infos.length)).length :=
        hwf _ _ _ _ heq
      have hbs : batchSize target st.totalSuccess infos.length ≤ target - st.totalSuccess := by
        simp [batchSize]
      obtain ⟨ih1, ih2, ih3, ih4⟩ := ih
      dsimp only at ih1 ih2 ih3 ih4 ⊢
      simp only [List.length_take] at hc
      simp only [List.length_append, List.length_map, List.length_take] at ih3 ⊢
      refine ⟨by omega, by omega, by omega, by omega⟩
  | case3 infos st fs hcond s c heq hsc ih =>
      rw [addLoop.eq_def]
      simp only [dif_pos hcond, heq, if_neg hsc]
      exact ih
  | case4 infos st fs hcond =>
      rw [addLoop.eq_def]
      simp only [dif_neg hcond]
      exact ⟨le_refl _, le_max_left _ _, trivial, trivial⟩

/-- The same four invariants through the per-file chunk loop. -/
theorem fetchLoop_invariant (fetchO : FetchOracle) (addO : AddOracle) (target : Nat)
    (hwf : AddOracle.WellFormed addO) :
    ∀ (ids : List String) (st : IngestState) (fs fi : Nat),
      st.totalSuccess ≤ (fetchLoop fetchO addO target ids st fs fi).1.totalSuccess ∧
      (fetchLoop fetchO addO target ids st fs fi).1.totalSuccess ≤ max st.totalSuccess target ∧
      (fetchLoop fetchO addO target ids st fs fi).1.session.length + st.totalSuccess
        = st.session.length + (fetchLoop fetchO addO target ids st fs fi).1.totalSuccess ∧
      (fetchLoop fetchO addO target ids st fs fi).2.1 + st.totalSuccess
        = fs + (fetchLoop fetchO addO target ids st fs fi).1.totalSuccess := by
  intro ids st fs fi
  induction ids, st, fs, fi using fetchLoop.induct fetchO addO target with
  | case1 ids st fs fi hcond h0 =>
      rw [fetchLoop.eq_def]
      simp only [dif_pos hcond, dif_pos h0]
      exact ⟨le_refl _, le_max_left _ _, trivial, trivial⟩
  | case2 ids st fs fi hcond h0 heq ih =>
      rw [fetchLoop.eq_def]
      simp only [dif_pos hcond, dif_neg h0, heq]
      exact ih
  | case3 ids st fs fi hcond h0 heq ih =>
      rw [fetchLoop.eq_def]
      simp only [dif_pos hcond, dif_neg h0, heq, if_pos rfl]
      simpa using ih
  | case4 ids st fs fi hcond h0 infos heq hne ih =>
      rw [fetchLoop.eq_def]
      simp only [dif_pos hcond, dif_neg h0, heq, if_neg hne]
      have ha := addLoop_invariant addO target hwf infos
        { st with fetchCalls := st.fetchCalls + 1 } fs
      obtain ⟨ha1, ha2, ha3, ha4⟩ := ha
      obtain ⟨ih1, ih2, ih3, ih4⟩ := ih
      dsimp only at ha1 ha2 ha3 ha4 ih1 ih2 ih3 ih4 ⊢
      refine ⟨by omega, by omega, by omega, by omega⟩
  | case5 ids st fs fi hcond =>
      rw [fetchLoop.eq_def]
      simp only [dif_neg hcond]
      exact ⟨le_refl _, le_max_left _ _, trivial, trivial⟩

/-- The invariants through the file loop, with the per-file conjunct summed
over the emitted reports. -/
theorem ingestFiles_invariant (fetchO : FetchOracle) (addO : AddOracle) (target : Nat)
    (hwf : AddOracle.WellFormed addO) :
    ∀ (files : List ProductFile) (st : IngestState),
      st.totalSuccess ≤ (ingestFiles fetchO addO target files st).1.totalSuccess ∧
      (ingestFiles fetchO addO target files st).1.totalSuccess ≤ max st.totalSuccess target ∧
      (ingestFiles fetchO addO target files st).1.session.length + st.totalSuccess
        = st.session.length + (ingestFiles fetchO addO target files st).1.totalSuccess ∧
      (((ingestFiles fetchO addO target files st).2.map FileReport.success).sum
          + st.totalSuccess
        = (ingestFiles fetchO addO target files st).1.totalSuccess) := by
  intro files
  induction files with
  | nil =>
      intro st
      simp only [ingestFiles, List.map_nil, List.sum_nil]
      exact ⟨le_refl _, le_max_left _ _, trivial, by omega⟩
  | cons f fs ih =>
      intro st
      simp only [ingestFiles]
      by_cases hbr : target ≤ st.totalSuccess
      · simp only [if_pos hbr, List.map_nil, List.sum_nil]
        exact ⟨le_refl _, le_max_left _ _, trivial, by omega⟩
      · simp only [if_neg hbr]
        have hf := fetchLoop_invariant fetchO addO target hwf (fileIds f) st 0 0
        obtain ⟨hf1, hf2, hf3, hf4⟩ := hf
        have hi := ih (fetchLoop fetchO addO target (fileIds f) st 0 0).1
        obtain ⟨hi1, hi2, hi3, hi4⟩ := hi
        simp only [List.map_cons, List.sum_cons]
        refine ⟨by omega, by omega, by omega, by omega⟩

/-! ## Claim theorems -/

/-- C1: for every list of product files, every target count, and every
sequence of fetch/add gateway outcomes (the gateway never reporting more
successes than the batch it was sent), one `addSkusToBag` run appends at most
`target` `LiveProduct` entries to the active session, and the aggregate
success counter never exceeds `target`. -/
theorem ingest_appends_at_most_target (fetchO : FetchOracle) (addO : AddOracle)
    (files : List ProductFile) (target : Nat)
    (hwf : AddOracle.WellFormed addO) :
    (addSkusToBag fetchO addO files target).state.session.length ≤ target ∧
    (addSkusToBag fetchO addO files target).state.totalSuccess ≤ target := by
  unfold addSkusToBag
  by_cases hf : files = []
  · simp [hf]
  · simp only [if_neg hf]
    obtain ⟨h1, h2, h3, h4⟩ := ingestFiles_invariant fetchO addO target hwf files ⟨0, 0, 0, []⟩
    dsimp only at h1 h2 h3 h4 ⊢
    simp only [List.length_nil] at h3
    constructor <;> omega

theorem ingest_appends_at_most_target_witness :
    AddOracle.WellFormed demoAdd ∧
    (addSkusToBag demoFetch demoAdd demoFiles 3).state.session.length ≤ 3 ∧
    (addSkusToBag demoFetch demoAdd demoFiles 3).state.totalSuccess ≤ 3 := by
  have hwf : AddOracle.WellFormed demoAdd := by
    intro n batch s c h
    cases h
    exact Nat.le_refl _
  exact ⟨hwf, ingest_appends_at_most_target demoFetch demoAdd demoFiles 3 hwf⟩

/-- C2: for every sequence of fetch/add gateway outcomes (well-formed as in
C1), the sum over all files of the reported per-file success counters equals
the number of `LiveProduct` entries appended to the active session by the
run. -/
theorem ingest_reported_sum_eq_appended (fetchO : FetchOracle) (addO : AddOracle)
    (files : List ProductFile) (target : Nat)
    (hwf : AddOracle.WellFormed addO) :
    ((addSkusToBag fetchO addO files target).reports.map FileReport.success).sum
      = (addSkusToBag fetchO addO files target).state.session.length := by
  unfold addSkusToBag
  by_cases hf : files = []
  · simp [hf]
  · simp only [if_neg hf]
    obtain ⟨h1, h2, h3, h4⟩ := ingestFiles_invariant fetchO addO target hwf files ⟨0, 0, 0, []⟩
    dsimp only at h1 h2 h3 h4 ⊢
    simp only [List.length_nil] at h3
    omega

theorem ingest_reported_sum_eq_appended_witness :
    AddOracle.WellFormed demoAdd ∧
    ((addSkusToBag demoFetch demoAdd demoFiles 8).reports.map FileReport.success).sum
      = (addSkusToBag demoFetch demoAdd demoFiles 8).state.session.length := by
  have hwf : AddOracle.WellFormed demoAdd := by
    intro n batch s c h
    cases h
    exact Nat.le_refl _
  exact ⟨hwf, ingest_reported_sum_eq_appended demoFetch demoAdd demoFiles 8 hwf⟩

/-- C7: a thrown `getSkuInfoByFile` or `addSkuToBagBatch` call is caught and
skipped — the loops continue with the next chunk / sub-batch and unchanged
counters — and a run over a non-empty file list always completes with a
status that is the partial-success warning exactly when the aggregate ends
below the target, and a success message otherwise; no outcome sequence
aborts the run. -/
theorem ingest_error_skip_and_partial_warning (fetchO : FetchOracle) (addO : AddOracle)
    (files : List ProductFile) (target : Nat) :
    (∀ (ids : List String) (st : IngestState) (fs fi : Nat),
      st.totalSuccess < target → ids ≠ [] →
      fetchO st.fetchCalls (ids.take (fetchCount target st.totalSuccess ids.length))
        = .err →
      fetchLoop fetchO addO target ids st fs fi
        = fetchLoop fetchO addO target
            (ids.drop (fetchCount target st.totalSuccess ids.length))
            { st with fetchCalls := st.fetchCalls + 1 } fs fi) ∧
    (∀ (infos : List SkuInfo) (st : IngestState) (fs : Nat),
      st.totalSuccess < target → infos ≠ [] →
      addO st.addCalls (infos.take (batchSize target st.totalSuccess infos.length))
        = .err →
      addLoop addO target infos st fs
        = addLoop addO target (infos.drop (batchSize target st.totalSuccess infos.length))
            { st with addCalls := st.addCalls + 1 } fs) ∧
    (files ≠ [] →
      (((addSkusToBag fetchO addO files target).status = .partialWarning ↔
        (addSkusToBag fetchO addO files target).state.totalSuccess < target) ∧
      ((addSkusToBag fetchO addO files target).status = .partialWarning ∨
        (addSkusToBag fetchO addO files target).status = .success))) := by
  refine ⟨?_, ?_, ?_⟩
  · intro ids st fs fi hlt hne heq
    have h0 : ¬ fetchCount target st.totalSuccess ids.length = 0 := by
      have : ids.length ≠ 0 := fun hl => hne (List.eq_nil_of_length_eq_zero hl)
      simp only [fetchCount]
      omega
    have hcond : st.totalSuccess < target ∧ ids ≠ [] := ⟨hlt, hne⟩
    conv_lhs => rw [fetchLoop.eq_def]
    simp only [dif_pos hcond, dif_neg h0, heq]
  · intro infos st fs hlt hne heq
    have hcond : st.totalSuccess < target ∧ infos ≠ [] := ⟨hlt, hne⟩
    conv_lhs => rw [addLoop.eq_def]
    simp only [dif_pos hcond, heq]
  · intro hf
    unfold addSkusToBag
    simp only [if_neg hf]
    by_cases hlt : (ingestFiles fetchO addO target files ⟨0, 0, 0, []⟩).1.totalSuccess < target
    · simp [hlt]
    · simp [hlt]

theorem ingest_error_skip_witness :
    (0 : Nat) < 8 ∧ (["a"] : List String) ≠ [] ∧
    errFetch 0 ((["a"] : List String).take (fetchCount 8 0 1)) = .err ∧
    fetchLoop errFetch errAdd 8 ["a"] ⟨0, 0, 0, []⟩ 0 0
      = fetchLoop errFetch errAdd 8 ((["a"] : List String).drop (fetchCount 8 0 1))
          ⟨0, 1, 0, []⟩ 0 0 ∧
    ((addSkusToBag errFetch errAdd demoFiles 8).status = .partialWarning ↔
      (addSkusToBag errFetch errAdd demoFiles 8).state.totalSuccess < 8) := by
  have h := ingest_error_skip_and_partial_warning errFetch errAdd demoFiles 8
  exact ⟨by decide, by decide, rfl,
    h.1 ["a"] ⟨0, 0, 0, []⟩ 0 0 (by decide) (by decide) rfl,
    (h.2.2 (by decide)).1⟩

/-- C3 (counterexample): `resume()` does not restore the phase active before
the pause — pausing a running rest-phase countdown and resuming restarts it
in the explain phase. -/
theorem resume_restores_phase_counterexample :
    ¬ ((resumeCountdown (pauseCountdown ⟨some 20000, true, none, Phase.rest⟩ 5000) 30000).phase
        = Phase.rest) := by decide

/-- C3 (amended): pausing a running countdown with target `t` at time `n1`
and resuming at time `n2` recomputes the target instant as `n2` plus the
paused remaining seconds and restarts the countdown, but always in the
explain phase — the phase active before the pause is restored only when it
was explain. -/
theorem resume_recomputes_target_explain_phase (st : CountdownState) (t n1 n2 : Nat)
    (hrun : st.running = true) (htgt : st.targetTime = some t) :
    resumeCountdown (pauseCountdown st n1) n2
      = { targetTime := some (n2 + ((t - n1) / 1000) * 1000)
          running := true
          pausedRemaining := none
          phase := Phase.explain } := by
  simp [pauseCountdown, htgt, hrun, resumeCountdown, startCountdownFromSeconds]

theorem resume_recomputes_target_witness :
    (⟨some 20000, true, none, Phase.rest⟩ : CountdownState).running = true ∧
    (⟨some 20000, true, none, Phase.rest⟩ : CountdownState).targetTime = some 20000 ∧
    resumeCountdown (pauseCountdown ⟨some 20000, true, none, Phase.rest⟩ 5000) 30000
      = ⟨some (30000 + ((20000 - 5000) / 1000) * 1000), true, none, Phase.explain⟩ :=
  ⟨rfl, rfl, resume_recomputes_target_explain_phase _ 20000 5000 30000 rfl rfl⟩

/-- C4: with auto-advance enabled, a product being explained, and the elapsed
time since `explainStartTime` below `MIN_EXPLAIN_DURATION` (63 s), a
switchNext request from the script panel is rejected as a no-op — `canNext`
disables it and the state is unchanged — while a switchPrev request never
depends on the explain start time. -/
theorem switchNext_time_gated_noop (st : LiveState) (now tAfter : Nat)
    (cookiesOk : Bool) (outcome : ExplainOutcome)
    (hauto : st.autoExplainEnabled = true) (hexp : st.isExplaining = true)
    (hstart : st.explainStartTime ≠ 0)
    (helapsed : now - st.explainStartTime < MIN_EXPLAIN_DURATION) :
    switchNextRequest st now tAfter cookiesOk outcome = st ∧
    (∀ (s : LiveState) (e : Nat),
      switchPrevRequest { s with explainStartTime := e }
        = { switchPrevRequest s with explainStartTime := e }) := by
  constructor
  · have hcs : canSwitchNext st now = false := by
      simp [canSwitchNext, hexp, hstart]
      omega
    have hcn : canNext st now = false := by
      by_cases h1 : st.aiScripts.length - 1 ≤ st.currentScriptIndex
      · simp [canNext, h1]
      · simp [canNext, h1, hauto, hexp, hcs]
    simp [switchNextRequest, hcn]
  · intro s e
    by_cases hp : 0 < s.currentScriptIndex
    · simp [switchPrevRequest, canPrev, hp]
    · simp [switchPrevRequest, canPrev, hp]

theorem switchNext_time_gated_noop_witness :
    demoLive.autoExplainEnabled = true ∧
    demoLive.isExplaining = true ∧
    demoLive.explainStartTime ≠ 0 ∧
    80000 - demoLive.explainStartTime < MIN_EXPLAIN_DURATION ∧
    switchNextRequest demoLive 80000 80100 true ExplainOutcome.ok = demoLive :=
  ⟨rfl, rfl, by decide, by decide,
    (switchNext_time_gated_noop demoLive 80000 80100 true .ok rfl rfl (by decide)
      (by decide)).1⟩

/-- C5: when `handleEndExplain` succeeds on the product of the last script
with auto-advance enabled, the controller enters a rest countdown targeting
`restDuration` seconds later, and when that countdown's timer fires with no
next script it stops the countdown and idles — not explaining, countdown
cleared, script pointer unchanged — without issuing any start-explain
request. -/
theorem end_last_script_rest_then_idle (st : LiveState) (sku : String) (now tAfter : Nat)
    (hroom : st.liveId ≠ none)
    (hrate : EXPLAIN_ACTION_DELAY ≤ now - st.lastExplainActionTime)
    (hauto : st.autoExplainEnabled = true)
    (hlast : st.currentScriptIndex = st.aiScripts.length - 1) :
    (handleEndExplain st sku now tAfter true .ok).1.countdown.running = true ∧
    (handleEndExplain st sku now tAfter true .ok).1.countdown.targetTime
      = some (tAfter + st.restDuration * 1000) ∧
    (restTimerFire (handleEndExplain st sku now tAfter true .ok).1).2 = none ∧
    (restTimerFire (handleEndExplain st sku now tAfter true .ok).1).1.countdown.running
      = false ∧
    (restTimerFire (handleEndExplain st sku now tAfter true .ok).1).1.countdown.targetTime
      = none ∧
    (restTimerFire (handleEndExplain st sku now tAfter true .ok).1).1.isExplaining = false ∧
    (restTimerFire (handleEndExplain st sku now tAfter true .ok).1).1.currentScriptIndex
      = st.currentScriptIndex := by
  have hnf : ¬(now - st.lastExplainActionTime < EXPLAIN_ACTION_DELAY) := by omega
  have hend : (handleEndExplain st sku now tAfter true .ok).1
      = { st with
            lastExplainActionTime := now
            isExplaining := false
            currentExplainingSku := none
            explainStartTime := 0
            countdown := startCountdown (stopCountdown st.countdown)
              (tAfter + st.restDuration * 1000) } := by
    simp [handleEndExplain, hroom, hnf, hauto, startRestAndNextExplain]
  rw [hend]
  have hnolt : ¬(st.currentScriptIndex < st.aiScripts.length - 1) := by omega
  simp [restTimerFire, hnolt, startCountdown, stopCountdown]

theorem end_last_script_rest_then_idle_witness :
    ({ demoLive with currentScriptIndex := 1 } : LiveState).liveId ≠ none ∧
    EXPLAIN_ACTION_DELAY
      ≤ 52000 - ({ demoLive with currentScriptIndex := 1 } : LiveState).lastExplainActionTime ∧
    ({ demoLive with currentScriptIndex := 1 } : LiveState).autoExplainEnabled = true ∧
    ({ demoLive with currentScriptIndex := 1 } : LiveState).currentScriptIndex
      = ({ demoLive with currentScriptIndex := 1 } : LiveState).aiScripts.length - 1 ∧
    (handleEndExplain { demoLive with currentScriptIndex := 1 } "sku2" 52000 52100 true
        .ok).1.countdown.running = true ∧
    (restTimerFire (handleEndExplain { demoLive with currentScriptIndex := 1 } "sku2" 52000
        52100 true .ok).1).2 = none ∧
    (restTimerFire (handleEndExplain { demoLive with currentScriptIndex := 1 } "sku2" 52000
        52100 true .ok).1).1.countdown.running = false := by
  have h := end_last_script_rest_then_idle { demoLive with currentScriptIndex := 1 } "sku2"
    52000 52100 (by decide) (by decide) rfl (by decide)
  exact ⟨by decide, by decide, rfl, by decide, h.1, h.2.2.1, h.2.2.2.1⟩

/-- C6: a start- or end-explain call issued strictly less than
`EXPLAIN_ACTION_DELAY` (1.5 s) after the previous non-rejected explain call
is a hard reject: the entire state — explain flags, current sku, countdown,
and the last-call timestamp itself — is unchanged (so nothing is queued or
retried), and with a room open the call reports the transient too-fast
warning. -/
theorem explain_rate_limit_hard_reject (st : LiveState) (sku : String) (now tAfter : Nat)
    (cookiesOk : Bool) (outcome : ExplainOutcome)
    (hfast : now - st.lastExplainActionTime < EXPLAIN_ACTION_DELAY) :
    (handleStartExplain st sku now tAfter cookiesOk outcome).1 = st ∧
    (handleEndExplain st sku now tAfter cookiesOk outcome).1 = st ∧
    (st.liveId ≠ none →
      (handleStartExplain st sku now tAfter cookiesOk outcome).2 = .tooFast ∧
      (handleEndExplain st sku now tAfter cookiesOk outcome).2 = .tooFast) := by
  by_cases hr : st.liveId = none
  · simp [handleStartExplain, handleEndExplain, hr, hfast]
  · simp [handleStartExplain, handleEndExplain, hr, hfast]

theorem explain_rate_limit_hard_reject_witness :
    50500 - demoLive.lastExplainActionTime < EXPLAIN_ACTION_DELAY ∧
    (handleStartExplain demoLive "sku1" 50500 50600 true ExplainOutcome.ok).1 = demoLive ∧
    (handleEndExplain demoLive "sku1" 50500 50600 true ExplainOutcome.ok).1 = demoLive ∧
    (handleStartExplain demoLive "sku1" 50500 50600 true ExplainOutcome.ok).2
      = CallResult.tooFast ∧
    (handleEndExplain demoLive "sku1" 50500 50600 true ExplainOutcome.ok).2
      = CallResult.tooFast := by
  have h := explain_rate_limit_hard_reject demoLive "sku1" 50500 50600 true .ok (by decide)
  exact ⟨by decide, h.1, h.2.1, (h.2.2 (by decide)).1, (h.2.2 (by decide)).2⟩

/-- Processing an event list splits at any point: the messages of the suffix
follow all messages of the prefix. -/
theorem hubRun_append (st : HubState) (xs ys : List HubEvent) :
    hubRun st (xs ++ ys)
      = ((hubRun (hubRun st xs).1 ys).1,
          (hubRun st xs).2 ++ (hubRun (hubRun st xs).1 ys).2) := by
  induction xs generalizing st with
  | nil => simp [hubRun]
  | cons e es ih => simp [hubRun, ih, List.append_assoc]

/-- C8: after a display surface's ready handshake (with the surface attached,
i.e. the screening flag set), the hub's full-state snapshot reply appears in
the outbound message sequence immediately — strictly before every message
produced by later events, in particular before any subsequent change-driven
push to that surface. -/
theorem ready_snapshot_precedes_later_pushes (st : HubState) (pre post : List HubEvent)
    (hscr : (hubRun st pre).1.screening = true) :
    (hubRun st (pre ++ HubEvent.ready :: post)).2
      = (hubRun st pre).2
        ++ ⟨SyncTrigger.readyReply, (hubRun st pre).1.scripts, (hubRun st pre).1.index⟩
          :: (hubRun (hubRun st pre).1 post).2 := by
  rw [hubRun_append]
  simp [hubRun, hubStep, hscr]

theorem ready_snapshot_precedes_later_pushes_witness :
    (hubRun demoHub [HubEvent.change demoScripts 1]).1.screening = true ∧
    (hubRun demoHub
        ([HubEvent.change demoScripts 1] ++ HubEvent.ready :: [HubEvent.change demoScripts 0])).2
      = (hubRun demoHub [HubEvent.change demoScripts 1]).2
        ++ ⟨SyncTrigger.readyReply,
              (hubRun demoHub [HubEvent.change demoScripts 1]).1.scripts,
              (hubRun demoHub [HubEvent.change demoScripts 1]).1.index⟩
          :: (hubRun (hubRun demoHub [HubEvent.change demoScripts 1]).1
                [HubEvent.change demoScripts 0]).2 :=
  ⟨by decide,
    ready_snapshot_precedes_later_pushes demoHub [HubEvent.change demoScripts 1]
      [HubEvent.change demoScripts 0] (by decide)⟩

/-- C9: `saveCurrentSession` keeps the persisted history at no more than
`MAX_SESSIONS` (50) entries: a session with a fresh id is inserted at the
front and everything beyond the maximum — the oldest entries, at the tail —
is evicted; an existing session is updated in place (so the list length is
clamped to the maximum); with no current session the list is untouched. -/
theorem saveCurrentSession_bounded (sessions : List LiveSession)
    (cur : Option LiveSession) (scripts : List AIScript) :
    (∀ c, cur = some c →
      (saveCurrentSession sessions cur scripts).length ≤ MAX_SESSIONS ∧
      ((∀ s ∈ sessions, s.id ≠ c.id) →
        saveCurrentSession sessions cur scripts
          = ({ c with scripts := scripts } :: sessions).take MAX_SESSIONS) ∧
      ((∃ s ∈ sessions, s.id = c.id) →
        (saveCurrentSession sessions cur scripts).length
          = min sessions.length MAX_SESSIONS)) ∧
    (cur = none → saveCurrentSession sessions cur scripts = sessions) := by
  constructor
  · intro c hc
    subst hc
    refine ⟨?_, ?_, ?_⟩
    · simp only [saveCurrentSession, updateOrUnshift]
      cases hidx : List.findIdx? (fun s => s.id == c.id) sessions with
      | none =>
          split
          · next hlen =>
              simp only [List.length_take]
              omega
          · next hlen =>
              omega
      | some i =>
          split
          · next hlen =>
              simp only [List.length_take]
              omega
          · next hlen =>
              simp only [List.length_set] at hlen ⊢
              omega
    · intro hfresh
      have hnone : List.findIdx? (fun s => s.id == c.id) sessions = none := by
        rw [List.findIdx?_eq_none_iff]
        intro s hs
        simpa using hfresh s hs
      simp only [saveCurrentSession, updateOrUnshift, hnone]
      split
      · next hlen => rfl
      · next hlen =>
          rw [List.take_of_length_le (by omega)]
    · intro hfound
      obtain ⟨s0, hs0, hid0⟩ := hfound
      have hsome : (List.findIdx? (fun s => s.id == c.id) sessions).isSome = true := by
        rw [List.findIdx?_isSome, List.any_eq_true]
        exact ⟨s0, hs0, by simp [hid0]⟩
      obtain ⟨i, hi⟩ := Option.isSome_iff_exists.mp hsome
      simp only [saveCurrentSession, updateOrUnshift, hi]
      split
      · next hlen =>
          simp only [List.length_take, List.length_set] at hlen ⊢
          omega
      · next hlen =>
          simp only [List.length_set] at hlen ⊢
          omega
  · intro hc
    subst hc
    rfl

theorem saveCurrentSession_bounded_witness :
    (saveCurrentSession [demoSession "a"] (some (demoSession "b")) []).length
      ≤ MAX_SESSIONS ∧
    saveCurrentSession [demoSession "a"] (some (demoSession "b")) []
      = ({ demoSession "b" with scripts := [] } :: [demoSession "a"]).take MAX_SESSIONS := by
  have h := (saveCurrentSession_bounded [demoSession "a"] (some (demoSession "b")) []).1
    (demoSession "b") rfl
  exact ⟨h.1, h.2.1 (by decide)⟩

/-- C10: `nextScript` is a no-op at the last index, `prevScript` is a no-op
at index zero, and any sequence of navigation requests keeps the script
pointer within `[0, length - 1]` whenever the script list is non-empty. -/
theorem script_pointer_stays_in_range (scripts : List AIScript) (idx : Nat)
    (ops : List NavOp) (hne : scripts ≠ []) (hidx : idx ≤ scripts.length - 1) :
    nextScript scripts (scripts.length - 1) = scripts.length - 1 ∧
    prevScript 0 = 0 ∧
    applyNavs scripts idx ops ≤ scripts.length - 1 := by
  refine ⟨by simp [nextScript], by simp [prevScript], ?_⟩
  induction ops generalizing idx with
  | nil => simpa [applyNavs]
  | cons op ops ih =>
      simp only [applyNavs]
      apply ih
      cases op
      · simp only [applyNav, nextScript]
        split <;> omega
      · simp only [applyNav, prevScript]
        split <;> omega

theorem script_pointer_stays_in_range_witness :
    demoScripts ≠ [] ∧ (0 : Nat) ≤ demoScripts.length - 1 ∧
    applyNavs demoScripts 0 [NavOp.next, NavOp.next, NavOp.prev]
      ≤ demoScripts.length - 1 :=
  ⟨by decide, by decide,
    (script_pointer_stays_in_range demoScripts 0 [NavOp.next, NavOp.next, NavOp.prev]
      (by decide) (by decide)).2.2⟩

end JDLive
